import Mathlib

/-!
Verification of the status-partitioning and reassignment core of the task
board in src/src/app/(main)/dashboard/task/[TaskId]/page.tsx.

The embedding is shallow: each TypeScript value-level operation becomes a
Lean function on an explicit state.  A JavaScript `undefined` store (the
result of assigning an absent `subTasks` field) is modelled as `none` of an
`Option`, and the `TypeError` that `undefined.filter` would raise is
modelled as `none` in the partition result.
-/

namespace AtmosTeam

/-- Assignee record: each element of a task assignees list carries an
identifier and a display name (fields used by the board view). -/
structure Assignee where
  id : String
  name : String
  deriving DecidableEq, Repr

/-- Nested sub-task item of a board task (minimally a title, as rendered by
DraggableTask). -/
structure SubTaskItem where
  title : String
  deriving DecidableEq, Repr

/-- Task record as consumed by the board: id, title, description, deadline
(kept as the raw string the view passes to the Date constructor), status
(a plain string at runtime; the four-value taxonomy is a type-level cast in
the source), assignees, and an optional nested sub-task list. -/
structure Task where
  id : String
  title : String
  description : String
  deadline : String
  status : String
  assignees : List Assignee
  subTasks : Option (List SubTaskItem)
  deriving DecidableEq, Repr

/-- The closed status taxonomy of the source: type TaskStatus. -/
def statusTaxonomy : List String := ["TODO", "IN_PROGRESS", "COMPLETED", "BACKLOG"]

/-- Embedding of moveTask (source lines 156-162): map over the store,
replacing the status field of every task whose id equals the dragged task
id, leaving every other task untouched. -/
def moveTask (store : List Task) (taskId : String) (newStatus : String) : List Task :=
  store.map (fun t => if t.id == taskId then { t with status := newStatus } else t)

/-- The four lanes computed by the tasksByStatus memo. -/
structure TasksByStatus where
  todo : List Task
  inProgress : List Task
  completed : List Task
  backlog : List Task
  deriving DecidableEq, Repr

/-- Embedding of tasksByStatus (source lines 164-172): four independent
filters of the store, one per taxonomy value. -/
def tasksByStatus (tasks : List Task) : TasksByStatus :=
  { todo := tasks.filter (fun t => t.status == "TODO")
    inProgress := tasks.filter (fun t => t.status == "IN_PROGRESS")
    completed := tasks.filter (fun t => t.status == "COMPLETED")
    backlog := tasks.filter (fun t => t.status == "BACKLOG") }

/-- Result shape of the fetch collaborator getTaskById as used by the board
path: only the subTasks field is read to populate the store; it may be
absent (undefined), modelled as none.  The display fields of the parent
record are not consumed by the store path and are omitted. -/
structure FetchResult where
  subTasks : Option (List Task)
  deriving DecidableEq, Repr

/-- Embedding of the store assignment in fetchTasks (source line 179):
setTasks(data.subTasks as any).  No fallback is applied, so an absent
subTasks field leaves the store holding the absent value (none), not an
empty list. -/
def storeAfterFetch (data : FetchResult) : Option (List Task) :=
  data.subTasks

/-- Partitioning applied to the store state: when the store holds a list,
the four filters run; when it holds the absent value, the filter calls in
the memo would raise a TypeError, modelled as none. -/
def partitionStore (s : Option (List Task)) : Option TasksByStatus :=
  s.map tasksByStatus

/-- The identifier handed to getTaskById by fetchTasks (source line 177):
a hardcoded constant, ignoring the routed TaskId. -/
def fetchedTaskId (_routedTaskId : String) : String :=
  "cm59m7yt30000iujtnlr77mne"

/-- The board store contents as a function of the fetch collaborator and
the routed TaskId: fetchTasks calls getTaskById on the fetched identifier
and assigns its subTasks field to the store. -/
def populateStore (getTaskById : String → FetchResult) (routedTaskId : String) :
    Option (List Task) :=
  storeAfterFetch (getTaskById (fetchedTaskId routedTaskId))

/-- Sample tasks for concrete witnesses (the scenario of spec section 8). -/
def sampleA : Task :=
  { id := "a", title := "A", description := "da", deadline := "2025-01-01"
    status := "TODO", assignees := [], subTasks := none }

def sampleB : Task :=
  { id := "b", title := "B", description := "db", deadline := "2025-01-02"
    status := "BACKLOG", assignees := [{ id := "u1", name := "U" }], subTasks := none }

def sampleC : Task :=
  { id := "c", title := "C", description := "dc", deadline := "2025-01-03"
    status := "TODO", assignees := [], subTasks := some [{ title := "s1" }] }

def sampleStore : List Task := [sampleA, sampleB, sampleC]

/-- Sample task carrying a status outside the taxonomy. -/
def sampleUnknown : Task :=
  { id := "u", title := "U", description := "du", deadline := "2025-01-04"
    status := "UNKNOWN", assignees := [], subTasks := none }

/-- Helper: mapping a list relates it positionwise to its image. -/
theorem forall₂_map_self {α β : Type} (f : α → β) (R : α → β → Prop)
    (h : ∀ a, R a (f a)) (l : List α) : List.Forall₂ R l (l.map f) := by
  induction l with
  | nil => exact List.Forall₂.nil
  | cons a as ih => exact List.Forall₂.cons (h a) ih

/-- C3: moveTask with a taskId that matches no task in the store returns a
store equal by content to the input store (a no-op, not an error). -/
theorem moveTask_absent_noop (store : List Task) (taskId newStatus : String)
    (habsent : ∀ t ∈ store, t.id ≠ taskId) :
    moveTask store taskId newStatus = store := by
  induction store with
  | nil => rfl
  | cons t ts ih =>
    have ht : t.id ≠ taskId := habsent t (List.mem_cons_self t ts)
    have hts : ∀ u ∈ ts, u.id ≠ taskId := fun u hu => habsent u (List.mem_cons_of_mem t hu)
    simp only [moveTask, List.map_cons] at *
    rw [if_neg (by simp [ht]), ih hts]

/-- Witness for C3 at a concrete store and an identifier absent from it. -/
theorem moveTask_absent_noop_witness :
    moveTask sampleStore "z" "COMPLETED" = sampleStore :=
  moveTask_absent_noop sampleStore "z" "COMPLETED" (by decide)

/-- C4: moveTask is idempotent for a fixed taskId and newStatus: applying
it twice yields the same store as applying it once. -/
theorem moveTask_idempotent (store : List Task) (taskId newStatus : String) :
    moveTask (moveTask store taskId newStatus) taskId newStatus
      = moveTask store taskId newStatus := by
  induction store with
  | nil => rfl
  | cons t ts ih =>
    simp only [moveTask, List.map_cons] at *
    rw [ih]
    by_cases h : t.id = taskId
    · simp [h]
    · simp [h]

/-- C6: moveTask never inserts or deletes tasks: the output has the same
length as the input and the same sequence of task identifiers in the same
positions. -/
theorem moveTask_preserves_ids (store : List Task) (taskId newStatus : String) :
    (moveTask store taskId newStatus).length = store.length ∧
    (moveTask store taskId newStatus).map Task.id = store.map Task.id := by
  constructor
  · simp [moveTask]
  · induction store with
    | nil => rfl
    | cons t ts ih =>
      simp only [moveTask, List.map_cons] at *
      rw [ih]
      by_cases h : t.id = taskId
      · simp [h]
      · simp [h]

/-- C7: tasksByStatus is deterministic and pure: on equal input sequences
the partition outputs are identical; the result depends only on the input
sequence. -/
theorem tasksByStatus_deterministic (T₁ T₂ : List Task) (h : T₁ = T₂) :
    tasksByStatus T₁ = tasksByStatus T₂ := by
  rw [h]

/-- Witness for C7 at a concrete input sequence. -/
theorem tasksByStatus_deterministic_witness :
    tasksByStatus sampleStore = tasksByStatus sampleStore :=
  tasksByStatus_deterministic sampleStore sampleStore rfl

/-- C9: the identifier passed to the fetch collaborator by the sub-task
population path is the same fixed constant for any two routed TaskId
values, so the store contents do not depend on the routed TaskId. -/
theorem populateStore_ignores_routed_id (g : String → FetchResult) (a b : String) :
    fetchedTaskId a = "cm59m7yt30000iujtnlr77mne" ∧
    fetchedTaskId a = fetchedTaskId b ∧
    populateStore g a = populateStore g b :=
  ⟨rfl, rfl, rfl⟩

/-- C1: for a store whose statuses all lie in the taxonomy, each lane of
tasksByStatus contains exactly the tasks with the matching status (by
membership and by multiplicity), keeps their relative input order (each
lane is a sublist of the input), the four lanes are pairwise disjoint, and
their union as a set is the input. -/
theorem tasksByStatus_partition (T : List Task)
    (h : ∀ t ∈ T, t.status ∈ statusTaxonomy) :
    (∀ t, t ∈ (tasksByStatus T).todo ↔ t ∈ T ∧ t.status = "TODO") ∧
    (∀ t, t ∈ (tasksByStatus T).inProgress ↔ t ∈ T ∧ t.status = "IN_PROGRESS") ∧
    (∀ t, t ∈ (tasksByStatus T).completed ↔ t ∈ T ∧ t.status = "COMPLETED") ∧
    (∀ t, t ∈ (tasksByStatus T).backlog ↔ t ∈ T ∧ t.status = "BACKLOG") ∧
    List.Sublist (tasksByStatus T).todo T ∧
    List.Sublist (tasksByStatus T).inProgress T ∧
    List.Sublist (tasksByStatus T).completed T ∧
    List.Sublist (tasksByStatus T).backlog T ∧
    (∀ t, t.status = "TODO" → (tasksByStatus T).todo.count t = T.count t) ∧
    (∀ t, t.status = "IN_PROGRESS" → (tasksByStatus T).inProgress.count t = T.count t) ∧
    (∀ t, t.status = "COMPLETED" → (tasksByStatus T).completed.count t = T.count t) ∧
    (∀ t, t.status = "BACKLOG" → (tasksByStatus T).backlog.count t = T.count t) ∧
    (∀ t, ¬(t ∈ (tasksByStatus T).todo ∧ t ∈ (tasksByStatus T).inProgress)) ∧
    (∀ t, ¬(t ∈ (tasksByStatus T).todo ∧ t ∈ (tasksByStatus T).completed)) ∧
    (∀ t, ¬(t ∈ (tasksByStatus T).todo ∧ t ∈ (tasksByStatus T).backlog)) ∧
    (∀ t, ¬(t ∈ (tasksByStatus T).inProgress ∧ t ∈ (tasksByStatus T).completed)) ∧
    (∀ t, ¬(t ∈ (tasksByStatus T).inProgress ∧ t ∈ (tasksByStatus T).backlog)) ∧
    (∀ t, ¬(t ∈ (tasksByStatus T).completed ∧ t ∈ (tasksByStatus T).backlog)) ∧
    (∀ t, t ∈ T ↔
      t ∈ (tasksByStatus T).todo ∨ t ∈ (tasksByStatus T).inProgress ∨
      t ∈ (tasksByStatus T).completed ∨ t ∈ (tasksByStatus T).backlog) := by
  refine ⟨?_, ?_, ?_, ?_, ?_, ?_, ?_, ?_, ?_, ?_, ?_, ?_, ?_, ?_, ?_, ?_, ?_, ?_, ?_⟩
  · intro t; simp [tasksByStatus, List.mem_filter]
  · intro t; simp [tasksByStatus, List.mem_filter]
  · intro t; simp [tasksByStatus, List.mem_filter]
  · intro t; simp [tasksByStatus, List.mem_filter]
  · exact List.filter_sublist T
  · exact List.filter_sublist T
  · exact List.filter_sublist T
  · exact List.filter_sublist T
  · intro t ht; exact List.count_filter (by simp [ht])
  · intro t ht; exact List.count_filter (by simp [ht])
  · intro t ht; exact List.count_filter (by simp [ht])
  · intro t ht; exact List.count_filter (by simp [ht])
  · intro t ⟨h₁, h₂⟩
    simp [tasksByStatus, List.mem_filter] at h₁ h₂
    exact absurd (h₁.2 ▸ h₂.2) (by decide)
  · intro t ⟨h₁, h₂⟩
    simp [tasksByStatus, List.mem_filter] at h₁ h₂
    exact absurd (h₁.2 ▸ h₂.2) (by decide)
  · intro t ⟨h₁, h₂⟩
    simp [tasksByStatus, List.mem_filter] at h₁ h₂
    exact absurd (h₁.2 ▸ h₂.2) (by decide)
  · intro t ⟨h₁, h₂⟩
    simp [tasksByStatus, List.mem_filter] at h₁ h₂
    exact absurd (h₁.2 ▸ h₂.2) (by decide)
  · intro t ⟨h₁, h₂⟩
    simp [tasksByStatus, List.mem_filter] at h₁ h₂
    exact absurd (h₁.2 ▸ h₂.2) (by decide)
  · intro t ⟨h₁, h₂⟩
    simp [tasksByStatus, List.mem_filter] at h₁ h₂
    exact absurd (h₁.2 ▸ h₂.2) (by decide)
  · intro t
    constructor
    · intro ht
      have hs := h t ht
      simp [statusTaxonomy] at hs
      rcases hs with hs | hs | hs | hs <;>
        simp [tasksByStatus, List.mem_filter, ht, hs]
    · intro ht
      rcases ht with ht | ht | ht | ht <;>
        exact (List.mem_filter.mp ht).1

/-- Witness for C1: the full partition conclusion at the concrete sample
store of spec section 8. -/
theorem tasksByStatus_partition_witness :
    (∀ t, t ∈ (tasksByStatus sampleStore).todo ↔ t ∈ sampleStore ∧ t.status = "TODO") ∧
    (∀ t, t ∈ (tasksByStatus sampleStore).inProgress ↔
      t ∈ sampleStore ∧ t.status = "IN_PROGRESS") ∧
    (∀ t, t ∈ (tasksByStatus sampleStore).completed ↔
      t ∈ sampleStore ∧ t.status = "COMPLETED") ∧
    (∀ t, t ∈ (tasksByStatus sampleStore).backlog ↔
      t ∈ sampleStore ∧ t.status = "BACKLOG") ∧
    List.Sublist (tasksByStatus sampleStore).todo sampleStore ∧
    List.Sublist (tasksByStatus sampleStore).inProgress sampleStore ∧
    List.Sublist (tasksByStatus sampleStore).completed sampleStore ∧
    List.Sublist (tasksByStatus sampleStore).backlog sampleStore ∧
    (∀ t, t.status = "TODO" →
      (tasksByStatus sampleStore).todo.count t = sampleStore.count t) ∧
    (∀ t, t.status = "IN_PROGRESS" →
      (tasksByStatus sampleStore).inProgress.count t = sampleStore.count t) ∧
    (∀ t, t.status = "COMPLETED" →
      (tasksByStatus sampleStore).completed.count t = sampleStore.count t) ∧
    (∀ t, t.status = "BACKLOG" →
      (tasksByStatus sampleStore).backlog.count t = sampleStore.count t) ∧
    (∀ t, ¬(t ∈ (tasksByStatus sampleStore).todo ∧
      t ∈ (tasksByStatus sampleStore).inProgress)) ∧
    (∀ t, ¬(t ∈ (tasksByStatus sampleStore).todo ∧
      t ∈ (tasksByStatus sampleStore).completed)) ∧
    (∀ t, ¬(t ∈ (tasksByStatus sampleStore).todo ∧
      t ∈ (tasksByStatus sampleStore).backlog)) ∧
    (∀ t, ¬(t ∈ (tasksByStatus sampleStore).inProgress ∧
      t ∈ (tasksByStatus sampleStore).completed)) ∧
    (∀ t, ¬(t ∈ (tasksByStatus sampleStore).inProgress ∧
      t ∈ (tasksByStatus sampleStore).backlog)) ∧
    (∀ t, ¬(t ∈ (tasksByStatus sampleStore).completed ∧
      t ∈ (tasksByStatus sampleStore).backlog)) ∧
    (∀ t, t ∈ sampleStore ↔
      t ∈ (tasksByStatus sampleStore).todo ∨ t ∈ (tasksByStatus sampleStore).inProgress ∨
      t ∈ (tasksByStatus sampleStore).completed ∨ t ∈ (tasksByStatus sampleStore).backlog) :=
  tasksByStatus_partition sampleStore (by decide)

/-- C2: on a store with unique identifiers containing the target id,
moveTask relates input and output positionwise: every task keeps its id,
title, description, deadline, assignees and subTasks; the task whose id is
the target gets status newStatus; every other task is unchanged as a whole
value; and the output contains a task with the target id and the new
status. -/
theorem moveTask_reassigns_target (store : List Task) (taskId newStatus : String)
    (hunique : store.Pairwise (fun a b => a.id ≠ b.id))
    (hmem : ∃ t ∈ store, t.id = taskId) :
    (∃ r ∈ moveTask store taskId newStatus, r.id = taskId ∧ r.status = newStatus) ∧
    List.Forall₂ (fun t r =>
      r.id = t.id ∧ r.title = t.title ∧ r.description = t.description ∧
      r.deadline = t.deadline ∧ r.assignees = t.assignees ∧ r.subTasks = t.subTasks ∧
      (t.id = taskId → r.status = newStatus) ∧
      (t.id ≠ taskId → r = t))
      store (moveTask store taskId newStatus) := by
  constructor
  · obtain ⟨t, ht, hid⟩ := hmem
    refine ⟨{ t with status := newStatus }, ?_, hid, rfl⟩
    have : (if t.id == taskId then { t with status := newStatus } else t)
        = { t with status := newStatus } := by simp [hid]
    exact this ▸ List.mem_map_of_mem _ ht
  · apply forall₂_map_self
    intro t
    by_cases h : t.id = taskId
    · simp [h]
    · simp [h]

/-- Witness for C2: the full conclusion at the concrete sample store,
moving task b to COMPLETED (the scenario of spec section 8). -/
theorem moveTask_reassigns_target_witness :
    (∃ r ∈ moveTask sampleStore "b" "COMPLETED", r.id = "b" ∧ r.status = "COMPLETED") ∧
    List.Forall₂ (fun t r =>
      r.id = t.id ∧ r.title = t.title ∧ r.description = t.description ∧
      r.deadline = t.deadline ∧ r.assignees = t.assignees ∧ r.subTasks = t.subTasks ∧
      (t.id = "b" → r.status = "COMPLETED") ∧
      (t.id ≠ "b" → r = t))
      sampleStore (moveTask sampleStore "b" "COMPLETED") :=
  moveTask_reassigns_target sampleStore "b" "COMPLETED" (by decide)
    ⟨sampleB, by decide, rfl⟩

/-- C8: moveTask performs a blind assignment: even when newStatus lies
outside the four-value taxonomy, the status of every task with the target
id becomes newStatus and every other status is untouched; no validation,
rejection or clamping occurs. -/
theorem moveTask_blind_assignment (store : List Task) (taskId newStatus : String)
    (hmem : ∃ t ∈ store, t.id = taskId)
    (hout : newStatus ∉ statusTaxonomy) :
    (∃ r ∈ moveTask store taskId newStatus, r.id = taskId ∧ r.status = newStatus) ∧
    List.Forall₂ (fun t r =>
      r.status = if t.id = taskId then newStatus else t.status)
      store (moveTask store taskId newStatus) := by
  constructor
  · obtain ⟨t, ht, hid⟩ := hmem
    refine ⟨{ t with status := newStatus }, ?_, hid, rfl⟩
    have : (if t.id == taskId then { t with status := newStatus } else t)
        = { t with status := newStatus } := by simp [hid]
    exact this ▸ List.mem_map_of_mem _ ht
  · apply forall₂_map_self
    intro t
    by_cases h : t.id = taskId
    · simp [h]
    · simp [h]

/-- Witness for C8: the conclusion at the sample store, moving task a to
the out-of-taxonomy status ARCHIVED. -/
theorem moveTask_blind_assignment_witness :
    (∃ r ∈ moveTask sampleStore "a" "ARCHIVED", r.id = "a" ∧ r.status = "ARCHIVED") ∧
    List.Forall₂ (fun t r =>
      r.status = if t.id = "a" then "ARCHIVED" else t.status)
      sampleStore (moveTask sampleStore "a" "ARCHIVED") :=
  moveTask_blind_assignment sampleStore "a" "ARCHIVED"
    ⟨sampleA, by decide, rfl⟩ (by decide)

/-- C10: a task whose status string is outside the four-value taxonomy
appears in none of the four lanes of tasksByStatus: it is silently dropped
from the board, with no error and no default lane. -/
theorem tasksByStatus_drops_unknown_status (T : List Task) (t : Task)
    (h : t.status ∉ statusTaxonomy) :
    t ∉ (tasksByStatus T).todo ∧ t ∉ (tasksByStatus T).inProgress ∧
    t ∉ (tasksByStatus T).completed ∧ t ∉ (tasksByStatus T).backlog := by
  have h4 : t.status ≠ "TODO" ∧ t.status ≠ "IN_PROGRESS" ∧
      t.status ≠ "COMPLETED" ∧ t.status ≠ "BACKLOG" := by
    simpa [statusTaxonomy, not_or] using h
  refine ⟨?_, ?_, ?_, ?_⟩ <;>
    · intro hmem
      have := (List.mem_filter.mp hmem).2
      simp_all

/-- Witness for C10: a task with status UNKNOWN sits in a concrete store
and lands in no lane. -/
theorem tasksByStatus_drops_unknown_status_witness :
    sampleUnknown ∉ (tasksByStatus (sampleStore ++ [sampleUnknown])).todo ∧
    sampleUnknown ∉ (tasksByStatus (sampleStore ++ [sampleUnknown])).inProgress ∧
    sampleUnknown ∉ (tasksByStatus (sampleStore ++ [sampleUnknown])).completed ∧
    sampleUnknown ∉ (tasksByStatus (sampleStore ++ [sampleUnknown])).backlog :=
  tasksByStatus_drops_unknown_status (sampleStore ++ [sampleUnknown]) sampleUnknown
    (by decide)

/-- C5 counterexample: when the fetch result has no subTasks field, store
initialization does NOT yield an empty store with a four-empty-lane
partition: the store holds the absent value and the partition fails. -/
theorem storeAfterFetch_absent_counterexample :
    ¬(storeAfterFetch { subTasks := none } = some [] ∧
      partitionStore (storeAfterFetch { subTasks := none }) =
        some { todo := [], inProgress := [], completed := [], backlog := [] }) := by
  decide

/-- C5 amended: when the fetch result has no subTasks field, the store is
set to the absent value (not an empty list) and the subsequent partition
fails rather than producing four empty lanes; only a supplied empty
sequence yields an empty store whose partition is four empty lanes. -/
theorem storeAfterFetch_absent_behavior :
    storeAfterFetch { subTasks := none } = none ∧
    partitionStore (storeAfterFetch { subTasks := none }) = none ∧
    ∀ data : FetchResult, data.subTasks = some [] →
      storeAfterFetch data = some [] ∧
      partitionStore (storeAfterFetch data) =
        some { todo := [], inProgress := [], completed := [], backlog := [] } := by
  refine ⟨rfl, rfl, ?_⟩
  intro data hdata
  simp [storeAfterFetch, partitionStore, hdata, tasksByStatus]

/-- Witness for the amended C5 at a fetch result supplying an empty task
sequence. -/
theorem storeAfterFetch_absent_behavior_witness :
    storeAfterFetch { subTasks := some [] } = some [] ∧
    partitionStore (storeAfterFetch { subTasks := some [] }) =
      some { todo := [], inProgress := [], completed := [], backlog := [] } :=
  storeAfterFetch_absent_behavior.2.2 { subTasks := some [] } rfl

end AtmosTeam
